import Mathlib

/-!
Verification of the task-store adapter of the seamstress production planner
(`app.py`).  The remote worksheet is modelled as a list of physical rows
(row 1 is the header, gspread positions are 1-based); each cell is a string.
Date values are kept as their string representations (the app writes them
with `strftime("%Y-%m-%d")`); the "current date" is an arbitrary string
parameter `today`.
-/

namespace Seamstress

/-- One physical spreadsheet row: a list of cell strings. -/
abbrev Row := List String

/-- The worksheet: physical rows, 1-based; the first row is the header. -/
abbrev Sheet := List Row

/-- A loaded task record, one field per required column
(`pd.DataFrame(plan_ws.get_all_records())` row, fields read by column name). -/
structure TaskRecord where
  taskName : String
  category : String
  quantity : String
  seamstress : String
  status : String
  priority : String
  cost : String
  expFile : String
  delFile : String
  timeline : String
  lastUpdated : String
deriving DecidableEq

/-- Python `str.title()` on a character stream: an alphabetic character is
upper-cased after a non-alphabetic character and lower-cased after an
alphabetic one; other characters pass through.  The boolean carries whether
the previous character was alphabetic. -/
def pyTitleAux : Bool → List Char → List Char
  | _, [] => []
  | prevAlpha, c :: cs =>
    let c' := if c.isAlpha then (if prevAlpha then c.toLower else c.toUpper) else c
    c' :: pyTitleAux c.isAlpha cs

/-- Python `str.title()`. -/
def pyTitle (s : String) : String := ⟨pyTitleAux false s.data⟩

/-- Python `str.strip()`: remove leading and trailing whitespace
characters. -/
def pyStrip (s : String) : String :=
  ⟨((s.data.dropWhile Char.isWhitespace).reverse.dropWhile Char.isWhitespace).reverse⟩

/-- `df.columns.str.strip().str.title()` applied to one column name
(app.py line 30). -/
def normalizeCol (s : String) : String := pyTitle (pyStrip s)

/-- The eleven required column names (app.py lines 32-33). -/
def requiredColumns : List String :=
  ["Task Name", "Category", "Quantity", "Seamstress", "Status", "Priority",
   "Cost", "Expected File Upload", "Delivered File Upload", "Timeline", "Last Updated"]

/-- Columns of `pd.DataFrame(plan_ws.get_all_records())` after normalization:
`get_all_records` returns one dict per data row keyed by the header row, so
an empty record list yields a frame with no columns at all; otherwise the
columns are the normalized header names. -/
def dfColumns (s : Sheet) : List String :=
  match s with
  | [] => []
  | header :: rest => if rest.isEmpty then [] else header.map normalizeCol

/-- `missing_cols = [col for col in required_columns if col not in df.columns]`
(app.py line 35). -/
def missingCols (s : Sheet) : List String :=
  requiredColumns.filter (fun c => !(dfColumns s).contains c)

/-- Reading one field of a data row by (normalized) column name: the cells
are keyed positionally by the column list, and the first column with the
given name supplies the value. -/
def getCol (cols : List String) (row : Row) (name : String) : String :=
  ((cols.zip row).lookup name).getD ""

/-- The task record a data row denotes, each field read by required-column
name from the normalized header. -/
def recordOfKeyed (cols : List String) (row : Row) : TaskRecord where
  taskName := getCol cols row "Task Name"
  category := getCol cols row "Category"
  quantity := getCol cols row "Quantity"
  seamstress := getCol cols row "Seamstress"
  status := getCol cols row "Status"
  priority := getCol cols row "Priority"
  cost := getCol cols row "Cost"
  expFile := getCol cols row "Expected File Upload"
  delFile := getCol cols row "Delivered File Upload"
  timeline := getCol cols row "Timeline"
  lastUpdated := getCol cols row "Last Updated"

/-- The error message of app.py line 37. -/
def missingMsg (missing : List String) : String :=
  "❌ Missing columns in Google Sheet: " ++ String.intercalate ", " missing

/-- Load (app.py lines 29-38): fetch all records, normalize the column
names, and halt with an error naming the missing columns when any required
column is absent; otherwise produce the ordered record sequence.  Date
cells are kept as their string representation. -/
def loadDf (s : Sheet) : Except String (List TaskRecord) :=
  if (missingCols s).isEmpty then
    .ok ((s.drop 1).map (recordOfKeyed (dfColumns s)))
  else
    .error (missingMsg (missingCols s))

/-- gspread `append_row(values)`: the row is appended as the new final
physical row (app.py lines 61-64). -/
def append_row (s : Sheet) (vals : Row) : Sheet := s ++ [vals]

/-- gspread `delete_row(p)`: removes the physical row at 1-based position
`p` (app.py lines 107 and 112). -/
def delete_row (s : Sheet) (p : Nat) : Sheet := s.eraseIdx (p - 1)

/-- gspread `insert_row(values, p)`: inserts the row at 1-based position
`p` (app.py line 108). -/
def insert_row (s : Sheet) (vals : Row) (p : Nat) : Sheet :=
  s.insertIdx (p - 1) vals

/-- The row the add-task form submits (app.py lines 61-64): the ten form
fields in schema order followed by the auto-stamped current date; the
form has no last-updated input, so `r.lastUpdated` never reaches the sheet. -/
def formRowOf (r : TaskRecord) (today : String) : Row :=
  [r.taskName, r.category, r.quantity, r.seamstress, r.status, r.priority,
   r.cost, r.expFile, r.delFile, r.timeline, today]

/-- The status/category filters (app.py lines 72-76): a Python list is
truthy exactly when non-empty, so an empty selection leaves the frame
untouched and a non-empty one keeps the rows whose column value is in the
selection. -/
def statusFiltered (records : List TaskRecord) (filter1 : List String) :
    List TaskRecord :=
  if filter1.isEmpty then records else
    records.filter (fun r => filter1.contains r.status)

/-- Second filter statement (app.py lines 75-76), applied to the result of
the first. -/
def filteredDf (records : List TaskRecord) (filter1 filter2 : List String) :
    List TaskRecord :=
  if filter2.isEmpty then statusFiltered records filter1 else
    (statusFiltered records filter1).filter (fun r => filter2.contains r.category)

/-- Position resolution (app.py line 101):
`df.index[df["Task Name"] == selected_row[0]["Task Name"]][0] + 2` — the
first index of the freshly loaded frame whose task name equals the selected
record's, plus the fixed header offset 2.  `none` models the uncaught
`IndexError` raised when the boolean mask selects no row. -/
def rowNumber (records : List TaskRecord) (name : String) : Option Nat :=
  match records.findIdx? (fun r => r.taskName == name) with
  | some i => some (i + 2)
  | none => none

/-- `new_row[-1] = datetime.today().strftime("%Y-%m-%d")` (app.py line
106): overwrite the last cell of the replacement row with the current
date. -/
def stampLast (row : Row) (today : String) : Row := row.dropLast ++ [today]

/-- The Update-Selected-Task handler (app.py lines 104-110) with the
outcome of each remote call made explicit: stamp the replacement row,
`delete_row(row_number)`, then `insert_row(new_row, row_number)`.  A remote
call that fails leaves the sheet as it was and aborts the handler; the
returned boolean reports whether both calls succeeded.  No rollback code
exists. -/
def updateSelectedTask (s : Sheet) (newRowVals : Row) (p : Nat)
    (today : String) (deleteOk insertOk : Bool) : Sheet × Bool :=
  let stamped := stampLast newRowVals today
  if deleteOk then
    let s1 := delete_row s p
    if insertOk then (insert_row s1 stamped p, true) else (s1, false)
  else (s, false)

/-- The task-table view (app.py lines 29-94): load, and when loading
succeeds produce the raw record sequence and the filtered display table;
`none` models `st.stop()` — no record view, no add form, no filtered
table. -/
def taskTableView (s : Sheet) (f1 f2 : List String) :
    Option (List TaskRecord × List TaskRecord) :=
  match loadDf s with
  | .error _ => none
  | .ok recs => some (recs, filteredDf recs f1 f2)

/-- The Delete-Selected-Task interaction end to end (app.py lines 29-114):
load the raw frame, filter it for display, take the grid-selected record at
index `selIdx` of the *filtered* view, resolve its physical row from the
*raw* frame by task-name lookup, and delete that physical row.  `none`
models a halt (schema error, nothing selected, or the `IndexError` of an
empty name match). -/
def deleteSelectedPipeline (s : Sheet) (f1 f2 : List String) (selIdx : Nat) :
    Option Sheet :=
  match loadDf s with
  | .error _ => none
  | .ok recs =>
    match (filteredDf recs f1 f2).get? selIdx with
    | none => none
    | some sel =>
      match rowNumber recs sel.taskName with
      | none => none
      | some p => some (delete_row s p)

/-! Concrete worksheets used by the scenario claims. -/

/-- A data row with the eleven cells in schema order. -/
def mkRow (t c q se st pr co e d ti l : String) : Row :=
  [t, c, q, se, st, pr, co, e, d, ti, l]

/-- The record such a row loads to (header in schema order). -/
def mkRec (t c q se st pr co e d ti l : String) : TaskRecord :=
  ⟨t, c, q, se, st, pr, co, e, d, ti, l⟩

def aliceRow : Row :=
  mkRow "Alice" "Stitching" "1" "Mia" "Working" "Low" "10" "" "" "2024-01-01" "2024-01-02"

def bobRow : Row :=
  mkRow "Bob" "Labelling" "2" "Noa" "Done" "High" "20" "" "" "2024-01-03" "2024-01-04"

def carolRow : Row :=
  mkRow "Carol" "Stitching" "3" "Pia" "Stuck" "Medium" "30" "" "" "2024-01-05" "2024-01-06"

def aliceRec : TaskRecord :=
  mkRec "Alice" "Stitching" "1" "Mia" "Working" "Low" "10" "" "" "2024-01-01" "2024-01-02"

def bobRec : TaskRecord :=
  mkRec "Bob" "Labelling" "2" "Noa" "Done" "High" "20" "" "" "2024-01-03" "2024-01-04"

def carolRec : TaskRecord :=
  mkRec "Carol" "Stitching" "3" "Pia" "Stuck" "Medium" "30" "" "" "2024-01-05" "2024-01-06"

/-- The three-row scenario table of spec §8: header, then
Alice/Working, Bob/Done, Carol/Stuck. -/
def scenarioSheet : Sheet := [requiredColumns, aliceRow, bobRow, carolRow]

/-- A table with two distinct records sharing the task name "Shirt". -/
def hemRow : Row :=
  mkRow "Hem" "Custom/Alteration" "1" "Ann" "Working" "Low" "5" "" "" "2024-02-01" "2024-02-02"

def shirtAnnRow : Row :=
  mkRow "Shirt" "Stitching" "2" "Ann" "Working" "Low" "8" "" "" "2024-02-03" "2024-02-04"

def shirtBeaRow : Row :=
  mkRow "Shirt" "Stitching" "4" "Bea" "Done" "High" "9" "" "" "2024-02-05" "2024-02-06"

def hemRec : TaskRecord :=
  mkRec "Hem" "Custom/Alteration" "1" "Ann" "Working" "Low" "5" "" "" "2024-02-01" "2024-02-02"

def shirtAnnRec : TaskRecord :=
  mkRec "Shirt" "Stitching" "2" "Ann" "Working" "Low" "8" "" "" "2024-02-03" "2024-02-04"

def shirtBeaRec : TaskRecord :=
  mkRec "Shirt" "Stitching" "4" "Bea" "Done" "High" "9" "" "" "2024-02-05" "2024-02-06"

/-- Duplicate-name table: Hem, then Ann's Shirt, then Bea's Shirt. -/
def dupSheet : Sheet := [requiredColumns, hemRow, shirtAnnRow, shirtBeaRow]

/-- A table with a single data row, used for the delete-to-empty case. -/
def oneRowSheet : Sheet := [requiredColumns, aliceRow]

/-- A table whose header carries only one of the required columns. -/
def badSheet : Sheet := [["Task Name"], ["x"]]

/-! Helper lemmas. -/

/-- Erasing at the split point of `pre ++ row :: post` removes exactly
`row`. -/
theorem eraseIdx_append_cons (pre : List Row) (a : Row) (post : List Row) :
    (pre ++ a :: post).eraseIdx pre.length = pre ++ post := by
  induction pre with
  | nil => rfl
  | cons x xs ih => simpa [List.eraseIdx_cons_succ] using ih

/-- Inserting at the split point of `pre ++ post` places the row between
the two parts. -/
theorem insertIdx_append_self (pre : List Row) (a : Row) (post : List Row) :
    (pre ++ post).insertIdx pre.length a = pre ++ a :: post := by
  induction pre with
  | nil => rfl
  | cons x xs ih => simpa [List.insertIdx_succ_cons] using ih

/-- `map` commutes with `eraseIdx`. -/
theorem map_eraseIdx_comm (f : Row → TaskRecord) :
    ∀ (l : List Row) (i : Nat), (l.eraseIdx i).map f = (l.map f).eraseIdx i := by
  intro l
  induction l with
  | nil => intro i; rfl
  | cons x xs ih =>
    intro i
    cases i with
    | zero => rfl
    | succ j => simpa [List.eraseIdx_cons_succ] using ih j

/-- When the header normalizes to the required schema and at least one data
row exists, the frame's columns are exactly the required columns. -/
theorem dfColumns_eq (hdr : Row) (rows : List Row)
    (hhdr : hdr.map normalizeCol = requiredColumns) (hne : rows ≠ []) :
    dfColumns (hdr :: rows) = requiredColumns := by
  simp [dfColumns, hhdr, List.isEmpty_eq_false.mpr hne]

/-- Under the same assumptions no required column is missing. -/
theorem missingCols_eq_nil (hdr : Row) (rows : List Row)
    (hhdr : hdr.map normalizeCol = requiredColumns) (hne : rows ≠ []) :
    missingCols (hdr :: rows) = [] := by
  rw [missingCols, dfColumns_eq hdr rows hhdr hne]
  rfl

/-- Loading a well-formed sheet with at least one data row succeeds and
produces the record denotation of each data row in order. -/
theorem loadDf_eq_ok (hdr : Row) (rows : List Row)
    (hhdr : hdr.map normalizeCol = requiredColumns) (hne : rows ≠ []) :
    loadDf (hdr :: rows) = .ok (rows.map (recordOfKeyed requiredColumns)) := by
  rw [loadDf, missingCols_eq_nil hdr rows hhdr hne, dfColumns_eq hdr rows hhdr hne]
  rfl

/-- The row the add-task form submits denotes the submitted record with the
last-updated field replaced by the stamped date. -/
theorem recordOf_formRow (r : TaskRecord) (today : String) :
    recordOfKeyed requiredColumns (formRowOf r today) = { r with lastUpdated := today } := by
  cases r
  rfl

/-- The filtered frame is a sublist of the loaded frame. -/
theorem statusFiltered_sublist (recs : List TaskRecord) (f1 : List String) :
    (statusFiltered recs f1).Sublist recs := by
  rw [statusFiltered]
  split
  · exact List.Sublist.refl _
  · exact List.filter_sublist _

/-- The filtered frame is a sublist of the loaded frame. -/
theorem filteredDf_sublist (recs : List TaskRecord) (f1 f2 : List String) :
    (filteredDf recs f1 f2).Sublist recs := by
  rw [filteredDf]
  split
  · exact statusFiltered_sublist recs f1
  · exact (List.filter_sublist _).trans (statusFiltered_sublist recs f1)

/-! Claim theorems. -/

/-- C1: position resolution takes the first row of the freshly loaded raw
table whose task name equals the selected record's and adds the header
offset 2; on a table holding two distinct records that both carry the task
name "Shirt", selecting the second of them (raw index 2, physical row 4)
resolves to physical row 3, so deleting at the resolved position removes
the other record while the selected one survives. -/
theorem C1_duplicate_name_wrong_row :
    loadDf dupSheet = .ok [hemRec, shirtAnnRec, shirtBeaRec]
    ∧ shirtBeaRec.taskName = "Shirt"
    ∧ shirtAnnRec ≠ shirtBeaRec
    ∧ rowNumber [hemRec, shirtAnnRec, shirtBeaRec] shirtBeaRec.taskName = some 3
    ∧ (3 : Nat) ≠ 2 + 2
    ∧ loadDf (delete_row dupSheet 3) = .ok [hemRec, shirtBeaRec] :=
  ⟨rfl, rfl, by decide, rfl, by decide, rfl⟩

/-- C6: on the three-row scenario table (Alice/Working, Bob/Done,
Carol/Stuck) the Status=["Done"] filter shows exactly Bob; deleting the
filtered Bob record resolves to physical row 3 (raw index 1 plus the
header offset 2) and removes it, and reloading returns Alice and Carol. -/
theorem C6_scenario_filtered_delete :
    loadDf scenarioSheet = .ok [aliceRec, bobRec, carolRec]
    ∧ filteredDf [aliceRec, bobRec, carolRec] ["Done"] [] = [bobRec]
    ∧ rowNumber [aliceRec, bobRec, carolRec] bobRec.taskName = some 3
    ∧ deleteSelectedPipeline scenarioSheet ["Done"] [] 0 =
        some (delete_row scenarioSheet 3)
    ∧ loadDf (delete_row scenarioSheet 3) = .ok [aliceRec, carolRec] :=
  ⟨rfl, rfl, rfl, rfl, rfl⟩

/-- C2: whenever at least one of the eleven required column names is
absent from the normalized columns, Load reports an error naming the
missing columns and halts: no record view, no filtered table, and no
selection pipeline output is produced. -/
theorem C2_missing_columns_halt (s : Sheet)
    (h : ∃ c ∈ requiredColumns, c ∉ dfColumns s) :
    requiredColumns.length = 11
    ∧ missingCols s ≠ []
    ∧ loadDf s = .error (missingMsg (missingCols s))
    ∧ (∀ f1 f2, taskTableView s f1 f2 = none)
    ∧ (∀ f1 f2 i, deleteSelectedPipeline s f1 f2 i = none) := by
  obtain ⟨c, hc, hnc⟩ := h
  have hfalse : (dfColumns s).contains c = false := by
    by_contra hx
    have hx' : (dfColumns s).contains c = true := by
      cases hxx : (dfColumns s).contains c
      · exact absurd hxx hx
      · rfl
    exact hnc (List.elem_iff.mp hx')
  have hmem : c ∈ missingCols s :=
    List.mem_filter.mpr ⟨hc, by rw [hfalse]; rfl⟩
  have hne : missingCols s ≠ [] := by
    intro h0
    rw [h0] at hmem
    exact List.not_mem_nil c hmem
  have hload : loadDf s = .error (missingMsg (missingCols s)) := by
    rw [loadDf, List.isEmpty_eq_false.mpr hne]
    rfl
  refine ⟨rfl, hne, hload, ?_, ?_⟩
  · intro f1 f2
    rw [taskTableView, hload]
  · intro f1 f2 i
    rw [deleteSelectedPipeline, hload]

/-- Witness for C2 on a sheet whose header holds only "Task Name". -/
theorem C2_missing_columns_halt_witness :
    requiredColumns.length = 11
    ∧ missingCols badSheet ≠ []
    ∧ loadDf badSheet = .error (missingMsg (missingCols badSheet))
    ∧ (∀ f1 f2, taskTableView badSheet f1 f2 = none)
    ∧ (∀ f1 f2 i, deleteSelectedPipeline badSheet f1 f2 i = none) :=
  C2_missing_columns_halt badSheet ⟨"Category", by decide, by decide⟩

/-- C3: the update handler is delete-then-insert at the same 1-based
position; the pair is not atomic: when the delete call succeeds and the
insert call fails, the handler leaves the sheet in the deleted state and
the original row — here occurring exactly once, at position `p` — is in
the sheet no longer, with no rollback restoring it. -/
theorem C3_update_not_atomic (s : Sheet) (pre post : List Row)
    (row newRowVals : Row) (p : Nat) (today : String)
    (hs : s = pre ++ row :: post) (hp : p = pre.length + 1)
    (h1 : row ∉ pre) (h2 : row ∉ post) :
    (updateSelectedTask s newRowVals p today true true).1 =
        insert_row (delete_row s p) (stampLast newRowVals today) p
    ∧ (updateSelectedTask s newRowVals p today true false).1 = delete_row s p
    ∧ row ∉ (updateSelectedTask s newRowVals p today true false).1 := by
  have hdel : delete_row s p = pre ++ post := by
    rw [hs, hp, delete_row]
    exact eraseIdx_append_cons pre row post
  refine ⟨rfl, rfl, ?_⟩
  show row ∉ delete_row s p
  rw [hdel]
  simp [h1, h2]

/-- Witness for C3 on the scenario sheet: Bob's row sits at physical
position 3; after a successful delete and a failed insert it is gone. -/
theorem C3_update_not_atomic_witness :
    (updateSelectedTask scenarioSheet bobRow 3 "2025-01-01" true true).1 =
        insert_row (delete_row scenarioSheet 3) (stampLast bobRow "2025-01-01") 3
    ∧ (updateSelectedTask scenarioSheet bobRow 3 "2025-01-01" true false).1 =
        delete_row scenarioSheet 3
    ∧ bobRow ∉ (updateSelectedTask scenarioSheet bobRow 3 "2025-01-01" true false).1 :=
  C3_update_not_atomic scenarioSheet [requiredColumns, aliceRow] [carolRow] bobRow bobRow 3
    "2025-01-01" rfl rfl (by decide) (by decide)

/-- C4: on a table whose header normalizes to the required schema, Append
followed by Load yields the prior record sequence with exactly one element
appended at the end, the given record with last-updated set to the stamped
current date; the statement holds for every record, so in particular no
task-name uniqueness check restricts it. -/
theorem C4_append_then_load (hdr : Row) (rows : List Row) (r : TaskRecord)
    (today : String) (hhdr : hdr.map normalizeCol = requiredColumns) :
    loadDf (append_row (hdr :: rows) (formRowOf r today)) =
      .ok (rows.map (recordOfKeyed requiredColumns) ++
           [{ r with lastUpdated := today }]) := by
  have h1 : append_row (hdr :: rows) (formRowOf r today) =
      hdr :: (rows ++ [formRowOf r today]) := by
    simp [append_row]
  rw [h1, loadDf_eq_ok hdr _ hhdr (by simp)]
  simp [recordOf_formRow]

/-- Witness for C4: appending a record whose task name "Bob" already
occurs in the table still appends it at the end. -/
theorem C4_append_then_load_witness :
    loadDf (append_row (requiredColumns :: [bobRow]) (formRowOf bobRec "2025-05-05")) =
      .ok ([bobRow].map (recordOfKeyed requiredColumns) ++
           [{ bobRec with lastUpdated := "2025-05-05" }]) :=
  C4_append_then_load requiredColumns [bobRow] bobRec "2025-05-05" rfl

/-- C5 (amended): deleting the data row at raw index `i` (physical
position `i + 2`) and reloading yields the prior record sequence with the
element at index `i` removed and all later elements shifted up by one —
provided at least one data row remains after the deletion. -/
theorem C5_delete_then_load (hdr : Row) (rows : List Row) (i : Nat)
    (hhdr : hdr.map normalizeCol = requiredColumns)
    (hi : i < rows.length) (h2 : 2 ≤ rows.length) :
    loadDf (delete_row (hdr :: rows) (i + 2)) =
      .ok ((rows.map (recordOfKeyed requiredColumns)).take i ++
           (rows.map (recordOfKeyed requiredColumns)).drop (i + 1)) := by
  have hdel : delete_row (hdr :: rows) (i + 2) = hdr :: rows.eraseIdx i := by
    rw [delete_row]
    exact List.eraseIdx_cons_succ
  have hne : rows.eraseIdx i ≠ [] := by
    apply List.length_pos.mp
    rw [List.length_eraseIdx, if_pos hi]
    omega
  rw [hdel, loadDf_eq_ok hdr _ hhdr hne, map_eraseIdx_comm,
    List.eraseIdx_eq_take_drop_succ]

/-- Witness for C5 (amended) on the scenario sheet: deleting Bob
(raw index 1, physical row 3). -/
theorem C5_delete_then_load_witness :
    loadDf (delete_row (requiredColumns :: [aliceRow, bobRow, carolRow]) (1 + 2)) =
      .ok (([aliceRow, bobRow, carolRow].map (recordOfKeyed requiredColumns)).take 1 ++
           ([aliceRow, bobRow, carolRow].map (recordOfKeyed requiredColumns)).drop (1 + 1)) :=
  C5_delete_then_load requiredColumns [aliceRow, bobRow, carolRow] 1 rfl
    (by decide) (by decide)

/-- Counterexample to C5 as stated: on a table with a single data row,
position 2 is valid, yet DeleteAt(2) followed by Load yields no sequence
at all — the emptied table loads as a frame with no columns, so Load halts
with the missing-columns error instead of returning the empty sequence. -/
theorem C5_counterexample_single_row :
    loadDf oneRowSheet = .ok [aliceRec]
    ∧ loadDf (delete_row oneRowSheet 2) = .error (missingMsg requiredColumns) :=
  ⟨rfl, rfl⟩

/-- C7: the last-updated field is rewritten to the current date by every
create (the appended form row carries the stamp in its last cell, so the
loaded record's last-updated equals the stamp) and by every update (the
replacement row's last cell is overwritten with the stamp while all other
cells are untouched); delete keeps every surviving physical row an
unmodified row of the prior sheet, and read returns exactly the record
denotation of each stored row, altering nothing. -/
theorem C7_last_updated_frame :
    (∀ (r : TaskRecord) (today : String),
        (recordOfKeyed requiredColumns (formRowOf r today)).lastUpdated = today)
    ∧ (∀ (row : Row) (today : String),
        (stampLast row today).getLast? = some today
        ∧ (stampLast row today).dropLast = row.dropLast)
    ∧ (∀ (s : Sheet) (p : Nat), ∀ row ∈ delete_row s p, row ∈ s)
    ∧ (∀ (s : Sheet) (f1 f2 : List String) (recs fdf : List TaskRecord),
        taskTableView s f1 f2 = some (recs, fdf) →
        recs = (s.drop 1).map (recordOfKeyed (dfColumns s))) := by
  refine ⟨?_, ?_, ?_, ?_⟩
  · intro r today
    rw [recordOf_formRow]
  · intro row today
    exact ⟨List.getLast?_concat _, List.dropLast_concat⟩
  · intro s p row hr
    exact (List.eraseIdx_sublist s (p - 1)).mem hr
  · intro s f1 f2 recs fdf hview
    rw [taskTableView] at hview
    rcases hl : loadDf s with e | recs'
    · rw [hl] at hview
      exact absurd hview (by simp)
    · rw [hl] at hview
      simp only [Option.some.injEq, Prod.mk.injEq] at hview
      rw [loadDf] at hl
      split at hl
      · injection hl with hl'
        rw [← hview.1, ← hl']
      · exact absurd hl (by simp)

/-- Witness for C7: the stamps and the delete-frame fact at concrete
inputs. -/
theorem C7_last_updated_frame_witness :
    (recordOfKeyed requiredColumns (formRowOf bobRec "2025-03-03")).lastUpdated = "2025-03-03"
    ∧ (stampLast bobRow "2025-03-03").getLast? = some "2025-03-03"
    ∧ aliceRow ∈ scenarioSheet :=
  ⟨C7_last_updated_frame.1 bobRec "2025-03-03",
   (C7_last_updated_frame.2.1 bobRow "2025-03-03").1,
   C7_last_updated_frame.2.2.1 scenarioSheet 3 aliceRow (by decide)⟩

/-- C8: the filtered view is an order-preserving subset (sublist) of the
raw loaded sequence; rendering it changes no sheet state (the view is a
pure function of the load result); and the delete pipeline resolves the
physical position of a selected record from the raw table by task-name
lookup — two selections of the same record through different filters
delete the same physical row. -/
theorem C8_filtered_view_invariants (s : Sheet) (recs : List TaskRecord)
    (f1 f2 : List String) (h : loadDf s = .ok recs) :
    (filteredDf recs f1 f2).Sublist recs
    ∧ taskTableView s f1 f2 = some (recs, filteredDf recs f1 f2)
    ∧ (∀ (i : Nat) (sel : TaskRecord),
        (filteredDf recs f1 f2).get? i = some sel →
        deleteSelectedPipeline s f1 f2 i =
          (rowNumber recs sel.taskName).map (fun p => delete_row s p))
    ∧ (∀ (g1 g2 : List String) (i j : Nat) (sel : TaskRecord),
        (filteredDf recs f1 f2).get? i = some sel →
        (filteredDf recs g1 g2).get? j = some sel →
        deleteSelectedPipeline s f1 f2 i = deleteSelectedPipeline s g1 g2 j) := by
  have key : ∀ (g1 g2 : List String) (i : Nat) (sel : TaskRecord),
      (filteredDf recs g1 g2).get? i = some sel →
      deleteSelectedPipeline s g1 g2 i =
        (rowNumber recs sel.taskName).map (fun p => delete_row s p) := by
    intro g1 g2 i sel hsel
    simp only [deleteSelectedPipeline, h, hsel]
    cases hrn : rowNumber recs sel.taskName <;> simp [hrn]
  refine ⟨filteredDf_sublist recs f1 f2, ?_, key f1 f2, ?_⟩
  · rw [taskTableView, h]
  · intro g1 g2 i j sel hi hj
    rw [key f1 f2 i sel hi, key g1 g2 j sel hj]

/-- Witness for C8 on the scenario sheet with the Done filter. -/
theorem C8_filtered_view_invariants_witness :
    (filteredDf [aliceRec, bobRec, carolRec] ["Done"] []).Sublist
      [aliceRec, bobRec, carolRec]
    ∧ taskTableView scenarioSheet ["Done"] [] =
        some ([aliceRec, bobRec, carolRec],
          filteredDf [aliceRec, bobRec, carolRec] ["Done"] []) :=
  ⟨(C8_filtered_view_invariants scenarioSheet [aliceRec, bobRec, carolRec]
      ["Done"] [] rfl).1,
   (C8_filtered_view_invariants scenarioSheet [aliceRec, bobRec, carolRec]
      ["Done"] [] rfl).2.1⟩

/-- C9: position resolution is partial — the name lookup yields `none`
(the code raises an uncaught IndexError on the empty match set, with no
guard) exactly when no row of the freshly loaded table carries the
selected record's task name. -/
theorem C9_no_match_resolution_none (recs : List TaskRecord) (name : String) :
    rowNumber recs name = none ↔ ∀ r ∈ recs, r.taskName ≠ name := by
  constructor
  · intro h r hr heq
    have hf : recs.findIdx? (fun r => r.taskName == name) = none := by
      rcases hx : recs.findIdx? (fun r => r.taskName == name) with _ | i
      · exact hx
      · rw [rowNumber, hx] at h
        cases h
    have hfalse := List.findIdx?_eq_none_iff.mp hf r hr
    rw [heq] at hfalse
    simp at hfalse
  · intro hall
    have hf : recs.findIdx? (fun r => r.taskName == name) = none :=
      List.findIdx?_eq_none_iff.mpr
        (fun r hr => beq_eq_false_iff_ne.mpr (hall r hr))
    rw [rowNumber, hf]

/-- Witness for C9: a stale selection whose task name matches no loaded
row resolves to `none`. -/
theorem C9_no_match_resolution_none_witness :
    rowNumber [aliceRec] "Ghost" = none :=
  (C9_no_match_resolution_none [aliceRec] "Ghost").mpr (by decide)

/-- C10: an empty filter selection is the identity — with both selections
empty the filtered view equals the full raw sequence — and each non-empty
selection restricts only its own column. -/
theorem C10_empty_filter_identity (recs : List TaskRecord) :
    filteredDf recs [] [] = recs
    ∧ (∀ f1, f1 ≠ [] → filteredDf recs f1 [] =
        recs.filter (fun r => f1.contains r.status))
    ∧ (∀ f2, f2 ≠ [] → filteredDf recs [] f2 =
        recs.filter (fun r => f2.contains r.category))
    ∧ (∀ f1 f2, f1 ≠ [] → f2 ≠ [] → filteredDf recs f1 f2 =
        (recs.filter (fun r => f1.contains r.status)).filter
          (fun r => f2.contains r.category)) := by
  refine ⟨rfl, ?_, ?_, ?_⟩
  · intro f1 h1
    simp [filteredDf, statusFiltered, List.isEmpty_eq_false.mpr h1]
  · intro f2 h2
    simp [filteredDf, statusFiltered, List.isEmpty_eq_false.mpr h2]
  · intro f1 f2 h1 h2
    simp [filteredDf, statusFiltered, List.isEmpty_eq_false.mpr h1,
      List.isEmpty_eq_false.mpr h2]

/-- Witness for C10 on the scenario records. -/
theorem C10_empty_filter_identity_witness :
    filteredDf [aliceRec, bobRec, carolRec] [] [] = [aliceRec, bobRec, carolRec]
    ∧ filteredDf [aliceRec, bobRec, carolRec] ["Done"] [] =
        [aliceRec, bobRec, carolRec].filter (fun r => ["Done"].contains r.status) :=
  ⟨(C10_empty_filter_identity [aliceRec, bobRec, carolRec]).1,
   (C10_empty_filter_identity [aliceRec, bobRec, carolRec]).2.1 ["Done"] (by decide)⟩

end Seamstress
